import Mathlib

/-!
# Verification of the ContextForge provider's client and reconcilers

Shallow embedding of `internal/client/client.go` and the reconciliation
logic of the provider resources (Gateway, Tool, Prompt, Root, ...) of the
`terraform-provider-contextforge` repository, together with proofs of the
behavioural properties stated in the repository's specification.

Conventions of the embedding:
* Go strings are Lean `String`s; HTTP status codes are `Nat`.
* JSON wire values are the inductive `Json` below; `encoding/json`
  decoding of a raw body is modelled by the executable parser
  `jsonParse` plus per-type decoders mirroring Go's `json.Unmarshal`
  semantics for the struct/map/slice types the code uses.
* Terraform framework values (`types.String`, `types.List`, ...) are
  modelled by the `TfString` / `TfList` / `TfBool` / `TfInt` inductives
  with explicit `null` / `unknown` constructors.
* A reconciler operation is embedded as a function that, besides its
  diagnostics and resulting state, records the list of API calls it
  issued, so that "no network call is made" is expressed as
  `apiCalls = []`.  The remote service's behaviour is passed in as an
  explicit argument (a response value or a response function).
-/

namespace ContextForge

/-! ## Transport (`internal/client/client.go`) -/

/-- Go `strings.TrimRight(s, "/")`: remove every trailing `'/'`. -/
def trimRightSlash (s : String) : String :=
  ⟨(s.data.reverse.dropWhile (fun c => c = '/')).reverse⟩

/-- `client.Client`: the immutable configuration held by the HTTP client
(`BaseURL`, `BearerToken`; the underlying `http.Client` carries no
semantics of its own). -/
structure Client where
  baseURL : String
  bearerToken : String
deriving DecidableEq

/-- `client.NewClient`: stores the base URL with all trailing `'/'`
stripped (`strings.TrimRight(baseURL, "/")`). -/
def NewClient (baseURL bearerToken : String) : Client :=
  { baseURL := trimRightSlash baseURL, bearerToken := bearerToken }

/-- `url.JoinPath(c.BaseURL, reqPath)` as used by `doRequestWithQuery`:
the request URL is a deterministic function of the stored base URL and
the relative path.  The stored base URL never ends in `'/'` and every
path in the code starts with `'/'`, so the join is plain concatenation. -/
def joinPath (base reqPath : String) : String :=
  base ++ reqPath

/-- `url.Values.Encode()` over the supplied query map (deterministic
`key=value` pairs joined with `&`). -/
def encodeQuery (query : List (String × String)) : String :=
  String.intercalate "&" (query.map (fun kv => kv.1 ++ "=" ++ kv.2))

/-- An HTTP request as built by `Client.doRequestWithQuery`: method, full
URL, and the headers set on it (in the order the code sets them). -/
structure HttpRequest where
  method : String
  url : String
  headers : List (String × String)
deriving DecidableEq

/-- The request-construction half of `Client.doRequestWithQuery`:
join base URL and path, append the encoded query if non-empty, then set
`Authorization: Bearer <token>` iff `c.BearerToken != ""`, and
`Content-Type: application/json` iff a body is supplied. -/
def buildRequest (c : Client) (method reqPath : String)
    (query : List (String × String)) (hasBody : Bool) : HttpRequest :=
  let url0 := joinPath c.baseURL reqPath
  let url := if query = [] then url0 else url0 ++ "?" ++ encodeQuery query
  let authHeaders :=
    if c.bearerToken ≠ "" then [("Authorization", "Bearer " ++ c.bearerToken)] else []
  let ctHeaders := if hasBody then [("Content-Type", "application/json")] else []
  { method := method, url := url, headers := authHeaders ++ ctHeaders }

/-- The request issued by `Client.GetHealth`: `GET /health` with no query
and no body, through the same `doRequest` path as every other call. -/
def healthRequest (c : Client) : HttpRequest :=
  buildRequest c "GET" "/health" [] false

/-! ## JSON wire values and `encoding/json` decoding -/

/-- An untyped JSON document (the dynamic value shape produced by
decoding a response body).  Number literals are kept as their source
text — no claim depends on numeric semantics. -/
inductive Json where
  | null
  | bool (b : Bool)
  | num (lit : String)
  | str (s : String)
  | arr (elements : List Json)
  | obj (fields : List (String × Json))

/-- JSON insignificant whitespace. -/
def isWs (c : Char) : Bool := c = ' ' || c = '\n' || c = '\t' || c = '\r'

def skipWs (cs : List Char) : List Char := cs.dropWhile isWs

def isDigitChar (c : Char) : Bool := '0' ≤ c && c ≤ '9'

/-- Characters that may appear in a JSON number token. -/
def isNumChar (c : Char) : Bool :=
  isDigitChar c || c = '-' || c = '+' || c = '.' || c = 'e' || c = 'E'

/-- Scan a JSON string literal after the opening quote; `\n`, `\t`, `\r`
are decoded, any other escaped character stands for itself. -/
def parseStringLit : Nat → List Char → List Char → Option (String × List Char)
  | 0, _, _ => none
  | fuel + 1, acc, cs =>
    match cs with
    | [] => none
    | '"' :: rest => some (String.mk acc.reverse, rest)
    | '\\' :: c :: rest =>
      let decoded := if c = 'n' then '\n' else if c = 't' then '\t' else if c = 'r' then '\r' else c
      parseStringLit fuel (decoded :: acc) rest
    | c :: rest => parseStringLit fuel (c :: acc) rest

mutual

/-- Fuel-bounded JSON value parser (the parsing half of `json.Unmarshal`). -/
def parseValue : Nat → List Char → Option (Json × List Char)
  | 0, _ => none
  | fuel + 1, cs =>
    match skipWs cs with
    | [] => none
    | 'n' :: 'u' :: 'l' :: 'l' :: rest => some (.null, rest)
    | 't' :: 'r' :: 'u' :: 'e' :: rest => some (.bool true, rest)
    | 'f' :: 'a' :: 'l' :: 's' :: 'e' :: rest => some (.bool false, rest)
    | '"' :: rest =>
      match parseStringLit (rest.length + 1) [] rest with
      | some (s, rest') => some (.str s, rest')
      | none => none
    | '[' :: rest =>
      match skipWs rest with
      | ']' :: rest' => some (.arr [], rest')
      | _ => parseElems fuel rest []
    | '{' :: rest =>
      match skipWs rest with
      | '}' :: rest' => some (.obj [], rest')
      | _ => parseFields fuel rest []
    | c :: rest =>
      if isDigitChar c || c = '-' then
        some (.num (String.mk ((c :: rest).takeWhile isNumChar)), (c :: rest).dropWhile isNumChar)
      else none

/-- Elements of a non-empty JSON array, after the opening bracket. -/
def parseElems : Nat → List Char → List Json → Option (Json × List Char)
  | 0, _, _ => none
  | fuel + 1, cs, acc =>
    match parseValue fuel cs with
    | none => none
    | some (v, rest) =>
      match skipWs rest with
      | ',' :: rest' => parseElems fuel rest' (acc ++ [v])
      | ']' :: rest' => some (.arr (acc ++ [v]), rest')
      | _ => none

/-- Members of a non-empty JSON object, after the opening brace. -/
def parseFields : Nat → List Char → List (String × Json) → Option (Json × List Char)
  | 0, _, _ => none
  | fuel + 1, cs, acc =>
    match skipWs cs with
    | '"' :: rest =>
      match parseStringLit (rest.length + 1) [] rest with
      | none => none
      | some (k, rest1) =>
        match skipWs rest1 with
        | ':' :: rest2 =>
          match parseValue fuel rest2 with
          | none => none
          | some (v, rest3) =>
            match skipWs rest3 with
            | ',' :: rest4 => parseFields fuel rest4 (acc ++ [(k, v)])
            | '}' :: rest4 => some (.obj (acc ++ [(k, v)]), rest4)
            | _ => none
        | _ => none
    | _ => none

end

/-- Parse a complete JSON document; trailing non-whitespace is an error,
as in `json.Unmarshal`. -/
def jsonParse (s : String) : Option Json :=
  match parseValue (2 * s.length + 2) s.data with
  | some (v, rest) => if skipWs rest = [] then some v else none
  | none => none

/-- Decoding into a Go `map[string]interface{}` target: a JSON object
yields the field list, JSON `null` leaves the map `nil` (no error), and
any other document is an unmarshal type error (`none`). -/
def unmarshalObjectBlob (s : String) : Option (Option (List (String × Json))) :=
  match jsonParse s with
  | some (.obj fs) => some (some fs)
  | some .null => some none
  | some _ => none
  | none => none

/-- Field lookup with `encoding/json` duplicate-key semantics: the last
occurrence of a key wins. -/
def lookupField (fs : List (String × Json)) (key : String) : Option Json :=
  fs.reverse.lookup key

/-- Decoding a JSON object member into a Go `string` struct field:
absent or `null` leaves the zero value `""`; a non-string member is an
unmarshal type error. -/
def getStringField (fs : List (String × Json)) (key : String) : Option String :=
  match lookupField fs key with
  | none => some ""
  | some .null => some ""
  | some (.str s) => some s
  | some _ => none

/-- Decoding a JSON object member into a Go `bool` struct field. -/
def getBoolField (fs : List (String × Json)) (key : String) : Option Bool :=
  match lookupField fs key with
  | none => some false
  | some .null => some false
  | some (.bool b) => some b
  | some _ => none

/-- Decoding a single element of a `[]string` target. -/
def asGoString (j : Json) : Option String :=
  match j with
  | .str s => some s
  | .null => some ""
  | _ => none

/-- Decoding a JSON object member into a Go `[]string` struct field:
absent or `null` leaves the slice `nil`. -/
def getStringListField (fs : List (String × Json)) (key : String) :
    Option (Option (List String)) :=
  match lookupField fs key with
  | none => some none
  | some .null => some none
  | some (.arr xs) =>
    match xs.mapM asGoString with
    | some ss => some (some ss)
    | none => none
  | some _ => none

/-! ## Resource client: Server (`internal/client/client.go`) -/

/-- `client.Server` (`nil` slices are `none`). -/
structure Server where
  id : String
  name : String
  description : String
  tags : Option (List String)
  visibility : String
  status : String
  createdAt : String
  updatedAt : String
deriving DecidableEq

/-- `json.Unmarshal(body, &server)` for `client.Server`: the body must
be a JSON object (or `null`, which leaves the zero struct). -/
def decodeServer (j : Json) : Option Server :=
  match j with
  | .null => some ⟨"", "", "", none, "", "", "", ""⟩
  | .obj fs => do
    let id ← getStringField fs "id"
    let name ← getStringField fs "name"
    let description ← getStringField fs "description"
    let tags ← getStringListField fs "tags"
    let visibility ← getStringField fs "visibility"
    let status ← getStringField fs "status"
    let createdAt ← getStringField fs "created_at"
    let updatedAt ← getStringField fs "updated_at"
    some ⟨id, name, description, tags, visibility, status, createdAt, updatedAt⟩
  | _ => none

def unmarshalServer (body : String) : Option Server :=
  jsonParse body >>= decodeServer

/-- The outcome of `doRequest`: a transport-level error, or the raw
response body together with the HTTP status code. -/
def TransportResult := Except String (String × Nat)

/-- `Client.GetServer` after `doRequest` returns: status 404 yields
`(nil, nil)` (absent, not an error); any status other than 200 is an
error carrying the status code and body; status 200 decodes the body. -/
def getServerResult (transport : TransportResult) : Except String (Option Server) :=
  match transport with
  | .error e => .error e
  | .ok (body, statusCode) =>
    if statusCode = 404 then .ok none
    else if statusCode ≠ 200 then
      .error ("unexpected status code " ++ toString statusCode ++ ": " ++ body)
    else
      match unmarshalServer body with
      | none => .error "decoding server response"
      | some server => .ok (some server)

/-- Modelled from the spec: the Get client methods for the entity kinds
other than Server (`GetGateway`, `GetTool`, `GetResource`, `GetPrompt`)
are not under `src/` — only their tests and reconciler callers are.
Per the spec's uniform per-operation contract, each applies the same
status interpretation as `Client.GetServer` with its own entity decoder:
404 is the first-class absent result, 200 decodes, anything else errors. -/
def getEntityResult (decode : String → Option α) (transport : TransportResult) :
    Except String (Option α) :=
  match transport with
  | .error e => .error e
  | .ok (body, statusCode) =>
    if statusCode = 404 then .ok none
    else if statusCode ≠ 200 then
      .error ("unexpected status code " ++ toString statusCode ++ ": " ++ body)
    else
      match decode body with
      | none => .error "decoding response"
      | some a => .ok (some a)

/-- `Client.DeleteServer` after `doRequest` returns: any status other
than 200, 204, or 404 is an error; otherwise success (`nil`). -/
def deleteServerResult (transport : TransportResult) : Except String Unit :=
  match transport with
  | .error e => .error e
  | .ok (body, statusCode) =>
    if statusCode ≠ 200 ∧ statusCode ≠ 204 ∧ statusCode ≠ 404 then
      .error ("unexpected status code " ++ toString statusCode ++ ": " ++ body)
    else .ok ()

/-- Modelled from the spec: the Delete client methods for the entity
kinds other than Server are not under `src/` — only their tests and
reconciler callers are.  Per the spec, every kind's Delete treats
status 200, 204, and 404 as success and anything else as an error. -/
def deleteEntityResult (transport : TransportResult) : Except String Unit :=
  match transport with
  | .error e => .error e
  | .ok (body, statusCode) =>
    if statusCode ≠ 200 ∧ statusCode ≠ 204 ∧ statusCode ≠ 404 then
      .error ("unexpected status code " ++ toString statusCode ++ ": " ++ body)
    else .ok ()

/-! ## Terraform framework values

The `types.String` / `types.List` / `types.Bool` / `types.Int64` values
held by resource models: each is null, unknown, or a known value, and
the Go `Value*` accessors return the zero value on null/unknown. -/

inductive TfString where
  | null
  | unknown
  | value (s : String)
deriving DecidableEq

/-- `types.String.ValueString()`: the known value, or `""`. -/
def TfString.valueString : TfString → String
  | .value s => s
  | _ => ""

/-- `!v.IsNull() && !v.IsUnknown()`. -/
def TfString.isSet : TfString → Bool
  | .value _ => true
  | _ => false

inductive TfBool where
  | null
  | unknown
  | value (b : Bool)
deriving DecidableEq

/-- `types.Bool.ValueBool()`: the known value, or `false`. -/
def TfBool.valueBool : TfBool → Bool
  | .value b => b
  | _ => false

/-- `!v.IsNull() && !v.IsUnknown()`. -/
def TfBool.isSet : TfBool → Bool
  | .value _ => true
  | _ => false

inductive TfInt where
  | null
  | unknown
  | value (i : Int)
deriving DecidableEq

/-- `types.Int64.ValueInt64()`: the known value, or `0`. -/
def TfInt.valueInt64 : TfInt → Int
  | .value i => i
  | _ => 0

/-- `!v.IsNull() && !v.IsUnknown()`. -/
def TfInt.isSet : TfInt → Bool
  | .value _ => true
  | _ => false

/-- A `types.List` of strings. -/
inductive TfList where
  | null
  | unknown
  | value (elems : List String)
deriving DecidableEq

/-- `v.ElementsAs(...)` after the `!IsNull && !IsUnknown` guard. -/
def TfList.elems : TfList → List String
  | .value es => es
  | _ => []

/-- `!v.IsNull() && !v.IsUnknown()`. -/
def TfList.isSet : TfList → Bool
  | .value _ => true
  | _ => false

/-- An entry appended to `resp.Diagnostics` by `AddError(summary, detail)`. -/
structure Diagnostic where
  summary : String
  detail : String
deriving DecidableEq

/-- The observable outcome of one reconciler operation: the API calls it
issued (in order), the diagnostics it reported, and the state it set
(`none` when the operation returned without setting state). -/
structure OpResult (ρ : Type) (σ : Type) where
  apiCalls : List ρ
  diagnostics : List Diagnostic
  newState : Option σ

/-- The outcome of a reconciler Read: a diagnostic, removal of the
resource from state (`resp.State.RemoveResource`), or refreshed state. -/
inductive ReadOutcome (σ : Type) where
  | failed (d : Diagnostic)
  | removed
  | updated (m : σ)

/-! ## `json.Marshal` of decoded documents -/

/-- Quote and escape a string for JSON output. -/
def encodeJsonString (s : String) : String :=
  "\"" ++ String.mk (s.data.flatMap (fun c =>
    if c = '"' then ['\\', '"']
    else if c = '\\' then ['\\', '\\']
    else if c = '\n' then ['\\', 'n']
    else if c = '\t' then ['\\', 't']
    else if c = '\r' then ['\\', 'r']
    else [c])) ++ "\""

mutual

/-- `json.Marshal` of an untyped document.  Object members are printed
in representation order (Go sorts map keys; no claim here depends on
member order). -/
def encodeJson : Json → String
  | .null => "null"
  | .bool true => "true"
  | .bool false => "false"
  | .num lit => lit
  | .str s => encodeJsonString s
  | .arr xs => "[" ++ encodeItems xs ++ "]"
  | .obj fs => "\x7b" ++ encodeMembers fs ++ "\x7d"

def encodeItems : List Json → String
  | [] => ""
  | [x] => encodeJson x
  | x :: y :: xs => encodeJson x ++ "," ++ encodeItems (y :: xs)

def encodeMembers : List (String × Json) → String
  | [] => ""
  | [(k, v)] => encodeJsonString k ++ ":" ++ encodeJson v
  | (k, v) :: f :: fs => encodeJsonString k ++ ":" ++ encodeJson v ++ "," ++ encodeMembers (f :: fs)

end

/-! ## Gateway (`GatewayResource`, with the `client` gateway types
reconstructed from their uses in `gatewayToModel` and the request
builders; the struct declarations themselves are not under `src/`) -/

/-- `client.GatewayHealthCheck` as used by the reconciler. -/
structure GatewayHealthCheck where
  url : String
  interval : Int
  timeout : Int
  retries : Int
deriving DecidableEq

/-- `client.Gateway` as used by `gatewayToModel` (`nil` map/slice/pointer
fields are `none`; an auth value withheld by the API is `""`). -/
structure Gateway where
  id : String
  name : String
  url : String
  description : String
  transport : String
  capabilities : Option (List (String × Json))
  healthCheck : Option GatewayHealthCheck
  isActive : Bool
  tags : Option (List String)
  passthroughHeaders : Option (List String)
  authType : String
  authValue : String
  createdAt : String
  updatedAt : String

/-- `client.GatewayCreate` as filled in by `GatewayResource.Create`. -/
structure GatewayCreate where
  name : String
  url : String
  description : String
  transport : String
  isActive : Bool
  tags : List String
  passthroughHeaders : List String
  authType : String
  authValue : String
  capabilities : Option (List (String × Json))
  healthCheck : Option GatewayHealthCheck

/-- `client.GatewayUpdate` as filled in by `GatewayResource.Update`
(`IsActive` is a `*bool`, always set by the reconciler). -/
structure GatewayUpdate where
  name : String
  url : String
  description : String
  transport : String
  isActive : Option Bool
  tags : List String
  passthroughHeaders : List String
  authType : String
  authValue : String
  capabilities : Option (List (String × Json))
  healthCheck : Option GatewayHealthCheck

/-- `GatewayResourceModel` (field per `tfsdk` attribute). -/
structure GatewayResourceModel where
  id : TfString
  name : TfString
  url : TfString
  description : TfString
  transport : TfString
  capabilities : TfString
  healthCheckURL : TfString
  healthCheckInterval : TfInt
  healthCheckTimeout : TfInt
  healthCheckRetries : TfInt
  isActive : TfBool
  tags : TfList
  passthroughHeaders : TfList
  authType : TfString
  authValue : TfString
  createdAt : TfString
  updatedAt : TfString

/-- `GatewayResource.gatewayToModel`: maps a `client.Gateway` onto the
resource model.  Empty auth type/value become null; a `nil` capabilities
map becomes a null string, otherwise the map is re-marshalled; a `nil`
health check nulls the four health-check attributes; `nil` tag and
passthrough-header slices become NULL lists (`types.ListNull`). -/
def gatewayToModel (gw : Gateway) : GatewayResourceModel where
  id := .value gw.id
  name := .value gw.name
  url := .value gw.url
  description := .value gw.description
  transport := .value gw.transport
  capabilities :=
    match gw.capabilities with
    | some caps => .value (encodeJson (.obj caps))
    | none => .null
  healthCheckURL :=
    match gw.healthCheck with
    | some hc => .value hc.url
    | none => .null
  healthCheckInterval :=
    match gw.healthCheck with
    | some hc => .value hc.interval
    | none => .null
  healthCheckTimeout :=
    match gw.healthCheck with
    | some hc => .value hc.timeout
    | none => .null
  healthCheckRetries :=
    match gw.healthCheck with
    | some hc => .value hc.retries
    | none => .null
  isActive := .value gw.isActive
  tags :=
    match gw.tags with
    | some ts => .value ts
    | none => .null
  passthroughHeaders :=
    match gw.passthroughHeaders with
    | some hs => .value hs
    | none => .null
  authType := if gw.authType ≠ "" then .value gw.authType else .null
  authValue := if gw.authValue ≠ "" then .value gw.authValue else .null
  createdAt := .value gw.createdAt
  updatedAt := .value gw.updatedAt

/-- The health-check sub-object built by `GatewayResource.Create` and
`GatewayResource.Update` when `health_check_url` is set; unset interval,
timeout, and retries stay at the Go zero value. -/
def gatewayHealthCheckFromPlan (plan : GatewayResourceModel) : Option GatewayHealthCheck :=
  if plan.healthCheckURL.isSet then
    some
      { url := plan.healthCheckURL.valueString
        interval := if plan.healthCheckInterval.isSet then plan.healthCheckInterval.valueInt64 else 0
        timeout := if plan.healthCheckTimeout.isSet then plan.healthCheckTimeout.valueInt64 else 0
        retries := if plan.healthCheckRetries.isSet then plan.healthCheckRetries.valueInt64 else 0 }
  else none

/-- The request-construction phase of `GatewayResource.Create`: an unset
active flag defaults to `true` at create time; a set, non-empty
capabilities blob must parse as a JSON object, otherwise the operation
stops with an `Invalid Capabilities` diagnostic before any call. -/
def gatewayCreateRequest (plan : GatewayResourceModel) : Except Diagnostic GatewayCreate :=
  let tags := if plan.tags.isSet then plan.tags.elems else []
  let passthroughHeaders := if plan.passthroughHeaders.isSet then plan.passthroughHeaders.elems else []
  let isActiveCreate := if plan.isActive.isSet then plan.isActive.valueBool else true
  let base : GatewayCreate :=
    { name := plan.name.valueString
      url := plan.url.valueString
      description := plan.description.valueString
      transport := plan.transport.valueString
      isActive := isActiveCreate
      tags := tags
      passthroughHeaders := passthroughHeaders
      authType := plan.authType.valueString
      authValue := plan.authValue.valueString
      capabilities := none
      healthCheck := gatewayHealthCheckFromPlan plan }
  if plan.capabilities.isSet ∧ plan.capabilities.valueString ≠ "" then
    match unmarshalObjectBlob plan.capabilities.valueString with
    | none => .error ⟨"Invalid Capabilities", "Unable to parse capabilities JSON"⟩
    | some caps => .ok { base with capabilities := caps }
  else .ok base

/-- `GatewayResource.Create`: build the create request (stopping on a
local validation error), issue `CreateGateway`, and on success map the
response onto the model. -/
def gatewayCreate (plan : GatewayResourceModel)
    (api : GatewayCreate → Except String Gateway) :
    OpResult GatewayCreate GatewayResourceModel :=
  match gatewayCreateRequest plan with
  | .error d => ⟨[], [d], none⟩
  | .ok req =>
    match api req with
    | .error e => ⟨[req], [⟨"Client Error", "Unable to create gateway, got error: " ++ e⟩], none⟩
    | .ok gw => ⟨[req], [], some (gatewayToModel gw)⟩

/-- `GatewayResource.Read`: a Get error is a diagnostic; an absent
gateway removes the resource from state; otherwise the response is
mapped onto the model and a previously-set `auth_value` is restored,
since the API never echoes it back. -/
def gatewayRead (state : GatewayResourceModel)
    (getResult : Except String (Option Gateway)) : ReadOutcome GatewayResourceModel :=
  match getResult with
  | .error e => .failed ⟨"Client Error", "Unable to read gateway, got error: " ++ e⟩
  | .ok none => .removed
  | .ok (some gw) =>
    let authValue := state.authValue
    let data := gatewayToModel gw
    .updated (if authValue.isSet then { data with authValue := authValue } else data)

/-- The request-construction phase of `GatewayResource.Update` (same
capabilities validation as Create; the active flag is sent as a pointer
to the plan's `ValueBool`). -/
def gatewayUpdateRequest (plan : GatewayResourceModel) : Except Diagnostic GatewayUpdate :=
  let tags := if plan.tags.isSet then plan.tags.elems else []
  let passthroughHeaders := if plan.passthroughHeaders.isSet then plan.passthroughHeaders.elems else []
  let base : GatewayUpdate :=
    { name := plan.name.valueString
      url := plan.url.valueString
      description := plan.description.valueString
      transport := plan.transport.valueString
      isActive := some plan.isActive.valueBool
      tags := tags
      passthroughHeaders := passthroughHeaders
      authType := plan.authType.valueString
      authValue := plan.authValue.valueString
      capabilities := none
      healthCheck := gatewayHealthCheckFromPlan plan }
  if plan.capabilities.isSet ∧ plan.capabilities.valueString ≠ "" then
    match unmarshalObjectBlob plan.capabilities.valueString with
    | none => .error ⟨"Invalid Capabilities", "Unable to parse capabilities JSON"⟩
    | some caps => .ok { base with capabilities := caps }
  else .ok base

/-- `GatewayResource.Update`: build the update request (stopping on a
local validation error), issue `UpdateGateway`, map the response onto
the model, and restore a previously-set `auth_value` from the plan,
since the API never echoes it back. -/
def gatewayUpdate (plan : GatewayResourceModel)
    (api : GatewayUpdate → Except String Gateway) :
    OpResult GatewayUpdate GatewayResourceModel :=
  match gatewayUpdateRequest plan with
  | .error d => ⟨[], [d], none⟩
  | .ok req =>
    match api req with
    | .error e => ⟨[req], [⟨"Client Error", "Unable to update gateway, got error: " ++ e⟩], none⟩
    | .ok gw =>
      let authValue := plan.authValue
      let data := gatewayToModel gw
      ⟨[req], [], some (if authValue.isSet then { data with authValue := authValue } else data)⟩

/-! ## Tool (`ToolResource`, `src/unnamed/part_004`; the `client` tool
structs are reconstructed from their uses) -/

/-- `client.Tool` as used by `toolToModel`. -/
structure Tool where
  id : String
  name : String
  description : String
  inputSchema : Option (List (String × Json))
  tags : Option (List String)
  isActive : Bool
  gatewayID : String
  visibility : String
  createdAt : String
  updatedAt : String

/-- `client.ToolCreate` as filled in by `ToolResource.Create`. -/
structure ToolCreate where
  name : String
  description : String
  inputSchema : Option (List (String × Json))
  tags : List String

/-- `client.CreateToolRequest`: the tool fields nested under `tool`
with a sibling `visibility`. -/
structure CreateToolRequest where
  tool : ToolCreate
  visibility : String

/-- `client.ToolUpdate` as filled in by `ToolResource.Update`. -/
structure ToolUpdate where
  name : String
  description : String
  inputSchema : Option (List (String × Json))
  tags : List String

/-- `ToolResourceModel` (field per `tfsdk` attribute). -/
structure ToolResourceModel where
  id : TfString
  name : TfString
  description : TfString
  inputSchema : TfString
  tags : TfList
  isActive : TfBool
  gatewayID : TfString
  visibility : TfString
  createdAt : TfString
  updatedAt : TfString

/-- `ToolResource.toolToModel`: a `nil` input schema becomes a null
string, otherwise it is re-marshalled; tags go through `ListValueFrom`,
which maps a `nil` slice to a null list. -/
def toolToModel (tool : Tool) : ToolResourceModel where
  id := .value tool.id
  name := .value tool.name
  description := .value tool.description
  inputSchema :=
    match tool.inputSchema with
    | some s => .value (encodeJson (.obj s))
    | none => .null
  tags :=
    match tool.tags with
    | some ts => .value ts
    | none => .null
  isActive := .value tool.isActive
  gatewayID := .value tool.gatewayID
  visibility := .value tool.visibility
  createdAt := .value tool.createdAt
  updatedAt := .value tool.updatedAt

/-- The request-construction phase of `ToolResource.Create`: a set,
non-empty `input_schema` blob must parse as a JSON object, otherwise
the operation stops with an `Invalid Input Schema` diagnostic before
any call. -/
def toolCreateRequest (plan : ToolResourceModel) : Except Diagnostic CreateToolRequest :=
  let tags := if plan.tags.isSet then plan.tags.elems else []
  if plan.inputSchema.isSet ∧ plan.inputSchema.valueString ≠ "" then
    match unmarshalObjectBlob plan.inputSchema.valueString with
    | none => .error ⟨"Invalid Input Schema", "Unable to parse input_schema JSON"⟩
    | some inputSchema =>
      .ok ⟨⟨plan.name.valueString, plan.description.valueString, inputSchema, tags⟩,
        plan.visibility.valueString⟩
  else
    .ok ⟨⟨plan.name.valueString, plan.description.valueString, none, tags⟩,
      plan.visibility.valueString⟩

/-- `ToolResource.Create`. -/
def toolCreate (plan : ToolResourceModel)
    (api : CreateToolRequest → Except String Tool) :
    OpResult CreateToolRequest ToolResourceModel :=
  match toolCreateRequest plan with
  | .error d => ⟨[], [d], none⟩
  | .ok req =>
    match api req with
    | .error e => ⟨[req], [⟨"Client Error", "Unable to create tool, got error: " ++ e⟩], none⟩
    | .ok tool => ⟨[req], [], some (toolToModel tool)⟩

/-- The request-construction phase of `ToolResource.Update` (same
`input_schema` validation as Create). -/
def toolUpdateRequest (plan : ToolResourceModel) : Except Diagnostic ToolUpdate :=
  let tags := if plan.tags.isSet then plan.tags.elems else []
  if plan.inputSchema.isSet ∧ plan.inputSchema.valueString ≠ "" then
    match unmarshalObjectBlob plan.inputSchema.valueString with
    | none => .error ⟨"Invalid Input Schema", "Unable to parse input_schema JSON"⟩
    | some inputSchema =>
      .ok ⟨plan.name.valueString, plan.description.valueString, inputSchema, tags⟩
  else
    .ok ⟨plan.name.valueString, plan.description.valueString, none, tags⟩

/-- `ToolResource.Update`. -/
def toolUpdate (plan : ToolResourceModel)
    (api : ToolUpdate → Except String Tool) :
    OpResult ToolUpdate ToolResourceModel :=
  match toolUpdateRequest plan with
  | .error d => ⟨[], [d], none⟩
  | .ok req =>
    match api req with
    | .error e => ⟨[req], [⟨"Client Error", "Unable to update tool, got error: " ++ e⟩], none⟩
    | .ok tool => ⟨[req], [], some (toolToModel tool)⟩

/-! ## Prompt (`PromptResource`, `internal/provider/prompt_resource.go`) -/

/-- Modelled from the spec: `client.PromptArgument` is not under `src/`
(only its uses in the prompt reconciler are).  Per the spec's data
model, a prompt argument is a name, a description, and a required flag. -/
structure PromptArgument where
  name : String
  description : String
  required : Bool
deriving DecidableEq

/-- `client.Prompt` as used by `promptToModel`. -/
structure Prompt where
  id : String
  name : String
  description : String
  arguments : Option (List PromptArgument)
  tags : Option (List String)
  isActive : Bool
  visibility : String
  createdAt : String
  updatedAt : String
deriving DecidableEq

/-- `client.PromptCreate` as filled in by `PromptResource.Create`. -/
structure PromptCreate where
  name : String
  description : String
  arguments : Option (List PromptArgument)
  tags : List String
deriving DecidableEq

/-- `client.CreatePromptRequest`: the prompt fields nested under
`prompt` with a sibling `visibility`. -/
structure CreatePromptRequest where
  prompt : PromptCreate
  visibility : String
deriving DecidableEq

/-- `client.PromptUpdate` as filled in by `PromptResource.Update`. -/
structure PromptUpdate where
  name : String
  description : String
  arguments : Option (List PromptArgument)
  tags : List String
deriving DecidableEq

/-- `PromptResourceModel` (field per `tfsdk` attribute). -/
structure PromptResourceModel where
  id : TfString
  name : TfString
  description : TfString
  arguments : TfString
  tags : TfList
  isActive : TfBool
  visibility : TfString
  createdAt : TfString
  updatedAt : TfString
deriving DecidableEq

/-- Decoding one element of a `[]client.PromptArgument` target: `null`
leaves the zero struct; a non-object element is an unmarshal type error. -/
def asPromptArgument (j : Json) : Option PromptArgument :=
  match j with
  | .null => some ⟨"", "", false⟩
  | .obj fs => do
    let name ← getStringField fs "name"
    let description ← getStringField fs "description"
    let required ← getBoolField fs "required"
    some ⟨name, description, required⟩
  | _ => none

/-- `json.Unmarshal` of the `arguments` blob into
`[]client.PromptArgument`: `null` leaves the slice `nil`; anything that
is not an array (or `null`) is an error. -/
def unmarshalPromptArguments (s : String) : Option (Option (List PromptArgument)) :=
  match jsonParse s with
  | some .null => some none
  | some (.arr xs) =>
    match xs.mapM asPromptArgument with
    | some args => some (some args)
    | none => none
  | some _ => none
  | none => none

/-- `json.Marshal` of a `[]client.PromptArgument`. -/
def encodePromptArguments (args : List PromptArgument) : String :=
  encodeJson (.arr (args.map (fun a =>
    .obj [("name", .str a.name), ("description", .str a.description),
      ("required", .bool a.required)])))

/-- `PromptResource.promptToModel`: a `nil` arguments slice becomes a
null string, otherwise it is re-marshalled; a `nil` tags slice becomes
a NULL list (`types.ListNull`). -/
def promptToModel (p : Prompt) : PromptResourceModel where
  id := .value p.id
  name := .value p.name
  description := .value p.description
  arguments :=
    match p.arguments with
    | some args => .value (encodePromptArguments args)
    | none => .null
  tags :=
    match p.tags with
    | some ts => .value ts
    | none => .null
  isActive := .value p.isActive
  visibility := .value p.visibility
  createdAt := .value p.createdAt
  updatedAt := .value p.updatedAt

/-- The request-construction phase of `PromptResource.Create`: a set,
non-empty `arguments` blob must parse as a JSON array of argument
objects, otherwise the operation stops with an `Invalid Arguments`
diagnostic before any call. -/
def promptCreateRequest (plan : PromptResourceModel) : Except Diagnostic CreatePromptRequest :=
  let tags := if plan.tags.isSet then plan.tags.elems else []
  if plan.arguments.isSet ∧ plan.arguments.valueString ≠ "" then
    match unmarshalPromptArguments plan.arguments.valueString with
    | none => .error ⟨"Invalid Arguments", "Unable to parse arguments JSON"⟩
    | some arguments =>
      .ok ⟨⟨plan.name.valueString, plan.description.valueString, arguments, tags⟩,
        plan.visibility.valueString⟩
  else
    .ok ⟨⟨plan.name.valueString, plan.description.valueString, none, tags⟩,
      plan.visibility.valueString⟩

/-- `PromptResource.Create`. -/
def promptCreate (plan : PromptResourceModel)
    (api : CreatePromptRequest → Except String Prompt) :
    OpResult CreatePromptRequest PromptResourceModel :=
  match promptCreateRequest plan with
  | .error d => ⟨[], [d], none⟩
  | .ok req =>
    match api req with
    | .error e => ⟨[req], [⟨"Client Error", "Unable to create prompt, got error: " ++ e⟩], none⟩
    | .ok p => ⟨[req], [], some (promptToModel p)⟩

/-- The request-construction phase of `PromptResource.Update` (same
`arguments` validation as Create). -/
def promptUpdateRequest (plan : PromptResourceModel) : Except Diagnostic PromptUpdate :=
  let tags := if plan.tags.isSet then plan.tags.elems else []
  if plan.arguments.isSet ∧ plan.arguments.valueString ≠ "" then
    match unmarshalPromptArguments plan.arguments.valueString with
    | none => .error ⟨"Invalid Arguments", "Unable to parse arguments JSON"⟩
    | some arguments =>
      .ok ⟨plan.name.valueString, plan.description.valueString, arguments, tags⟩
  else
    .ok ⟨plan.name.valueString, plan.description.valueString, none, tags⟩

/-- `PromptResource.Update`. -/
def promptUpdate (plan : PromptResourceModel)
    (api : PromptUpdate → Except String Prompt) :
    OpResult PromptUpdate PromptResourceModel :=
  match promptUpdateRequest plan with
  | .error d => ⟨[], [d], none⟩
  | .ok req =>
    match api req with
    | .error e => ⟨[req], [⟨"Client Error", "Unable to update prompt, got error: " ++ e⟩], none⟩
    | .ok p => ⟨[req], [], some (promptToModel p)⟩

/-! ## Root (`RootResource`, second unit of
`internal/provider/prompts_data_source.go`) -/

/-- `client.Root`: identified by its URI. -/
structure Root where
  uri : String
  name : String
deriving DecidableEq

/-- `RootResourceModel`. -/
structure RootResourceModel where
  uri : TfString
  name : TfString
deriving DecidableEq

/-- `RootResource.Update`: unconditionally reports the descriptive
`Unexpected Update` error — it issues no API call and sets no state,
for every request. -/
def rootUpdate (_plan : RootResourceModel) : OpResult Unit RootResourceModel :=
  ⟨[], [⟨"Unexpected Update",
    "Root resources do not support in-place updates. All attribute changes require resource replacement."⟩],
    none⟩

/-- `RootResource.Read`: fetch the full root list via `ListRoots` and
linear-scan it for the first root whose URI equals the URI in state; no
match removes the resource from state (no error); a match refreshes
state from the found root (an empty name becomes null). -/
def rootRead (state : RootResourceModel)
    (listResult : Except String (List Root)) : ReadOutcome RootResourceModel :=
  match listResult with
  | .error e => .failed ⟨"Client Error", "Unable to list roots, got error: " ++ e⟩
  | .ok roots =>
    match roots.find? (fun r => r.uri == state.uri.valueString) with
    | none => .removed
    | some found =>
      .updated ⟨.value found.uri, if found.name ≠ "" then .value found.name else .null⟩

/-! ## Declared schema validation (visibility / transport `OneOf`
validators, per resource schema) -/

/-- The validator component of a `schema.StringAttribute`: the list of
`stringvalidator.OneOf(...)` allowed sets attached to the attribute. -/
structure StringAttributeValidators where
  oneOfSets : List (List String)
deriving DecidableEq

/-- `ToolResource.Schema`'s `visibility` attribute carries NO
validators (`src/unnamed/part_004` lines 91–95). -/
def toolVisibilityValidators : StringAttributeValidators := ⟨[]⟩

/-- `PromptResource.Schema`'s `visibility` attribute:
`OneOf("public", "private", "team")`. -/
def promptVisibilityValidators : StringAttributeValidators := ⟨[["public", "private", "team"]]⟩

/-- `ServerResource.Schema`'s `visibility` attribute:
`OneOf("public", "private", "team")`. -/
def serverVisibilityValidators : StringAttributeValidators := ⟨[["public", "private", "team"]]⟩

/-- `MCPResourceResource.Schema`'s `visibility` attribute:
`OneOf("public", "private", "team")`. -/
def mcpResourceVisibilityValidators : StringAttributeValidators := ⟨[["public", "private", "team"]]⟩

/-- `GatewayResource.Schema`'s `transport` attribute:
`OneOf("STREAMABLEHTTP", "SSE", "STDIO")`. -/
def gatewayTransportValidators : StringAttributeValidators := ⟨[["STREAMABLEHTTP", "SSE", "STDIO"]]⟩

/-- Whether a declared value passes every `OneOf` validator attached to
the attribute (the framework runs these before any reconciler call, so
a `false` here rejects the value before any network call). -/
def passesValidators (attr : StringAttributeValidators) (s : String) : Bool :=
  attr.oneOfSets.all (fun allowed => allowed.contains s)

/-! ## Concrete test vectors (used by witness theorems) -/

/-- A gateway as returned by the API with no auth value and absent
optional collections. -/
def sampleGateway : Gateway :=
  ⟨"gw-1", "gw", "https://example.com", "", "STREAMABLEHTTP",
    none, none, true, none, none, "", "", "", ""⟩

/-- Gateway state holding a previously-known `auth_value`. -/
def sampleGatewayState : GatewayResourceModel :=
  ⟨.value "gw-1", .value "gw", .value "https://example.com", .null, .null,
    .null, .null, .null, .null, .null, .value true, .null, .null,
    .null, .value "secret", .null, .null⟩

/-- A prompt as returned by the API with absent optional collections. -/
def samplePrompt : Prompt :=
  ⟨"prompt-1", "p", "", none, none, true, "public", "", ""⟩

/-- A tool as returned by the API with absent optional collections. -/
def sampleTool : Tool :=
  ⟨"tool-1", "t", "", none, none, true, "", "public", "", ""⟩

/-- A tool plan whose `input_schema` blob is not valid JSON. -/
def sampleBadToolPlan : ToolResourceModel :=
  ⟨.null, .value "t", .null, .value "x", .null, .null, .null, .null, .null, .null⟩

/-- A gateway plan whose `capabilities` blob is not valid JSON. -/
def sampleBadGatewayPlan : GatewayResourceModel :=
  ⟨.null, .value "gw", .value "https://example.com", .null, .null,
    .value "x", .null, .null, .null, .null, .null, .null, .null,
    .null, .null, .null, .null⟩

/-- A prompt plan whose `arguments` blob is not valid JSON. -/
def sampleBadPromptPlan : PromptResourceModel :=
  ⟨.null, .value "p", .null, .value "x", .null, .null, .null, .null, .null⟩

end ContextForge

namespace ContextForge

/-! ## Theorems: C10 -/

theorem trimRightSlash_append_slash (b : String) :
    trimRightSlash (b ++ "/") = trimRightSlash b := by
  cases b with
  | mk data =>
    show trimRightSlash ⟨data ++ ['/']⟩ = trimRightSlash ⟨data⟩
    simp [trimRightSlash, List.dropWhile]

/-! ## Theorems: C5 -/

/-- C5 counterexample: with a configured bearer token `"tok"`, the
health-check request built by `Client.GetHealth` (which goes through the
same `doRequest` path as every other call) DOES carry the
`Authorization: Bearer tok` header — the claim that health-check
requests are sent without the Authorization header is false. -/
theorem C5_counterexample :
    ("Authorization", "Bearer tok") ∈ (healthRequest (NewClient "http://h" "tok")).headers := by
  decide

/-- C5 (amended): when a bearer token is configured (non-empty), every
request issued through the transport — including the health-check
request `GET /health` — carries `Authorization: Bearer <token>`; when no
token is configured, no request carries an Authorization header (health
checks succeed unauthenticated only in this sense). -/
theorem C5_bearer_header_on_every_request (c : Client) (method p : String)
    (query : List (String × String)) (hasBody : Bool) :
    (c.bearerToken ≠ "" →
      ("Authorization", "Bearer " ++ c.bearerToken) ∈ (buildRequest c method p query hasBody).headers
      ∧ ("Authorization", "Bearer " ++ c.bearerToken) ∈ (healthRequest c).headers)
    ∧ (c.bearerToken = "" →
      ∀ v, ("Authorization", v) ∉ (buildRequest c method p query hasBody).headers) := by
  constructor
  · intro htok
    constructor
    · simp [buildRequest, htok]
    · simp [healthRequest, buildRequest, htok]
  · intro htok v
    cases hasBody <;> simp [buildRequest, htok]

/-- C5 witness: the amended theorem applied to a concrete client with
token `"tok"` and a concrete non-health request. -/
theorem C5_witness :
    ("Authorization", "Bearer tok")
      ∈ (buildRequest (NewClient "http://h" "tok") "GET" "/servers" [] false).headers :=
  ((C5_bearer_header_on_every_request (NewClient "http://h" "tok") "GET" "/servers" [] false).1
    (by decide)).1

/-! ## Theorems: C10 -/

/-- C10: a client constructed from `b ++ "/"` builds exactly the same
requests as one constructed from `b` — `NewClient` strips all trailing
`'/'` from the base URL, so trailing slashes on the configured endpoint
never change the issued request. -/
theorem C10_trailing_slash_normalization
    (b tok method p : String) (query : List (String × String)) (hasBody : Bool) :
    buildRequest (NewClient (b ++ "/") tok) method p query hasBody
      = buildRequest (NewClient b tok) method p query hasBody
    ∧ (NewClient (b ++ "/") tok).baseURL = (NewClient b tok).baseURL := by
  have hbase : (NewClient (b ++ "/") tok).baseURL = (NewClient b tok).baseURL := by
    simp [NewClient, trimRightSlash_append_slash]
  refine ⟨?_, hbase⟩
  simp [buildRequest, joinPath, NewClient, trimRightSlash_append_slash]

/-! ## Theorems: C1 -/

/-- C1: for Get calls (`Client.GetServer` from the source, and the
spec-modelled uniform Get of the other entity kinds), a 404 response
yields the first-class absent result `.ok none` (nil entity, nil
error), a 200 response yields the decoded entity, and every other
status yields an error, which is distinct from the absent result. -/
theorem C1_get_status_interpretation (body : String) (status : Nat)
    (α : Type) (decode : String → Option α) :
    getServerResult (.ok (body, 404)) = .ok none
    ∧ (∀ s, unmarshalServer body = some s →
        getServerResult (.ok (body, 200)) = .ok (some s))
    ∧ (status ≠ 200 → status ≠ 404 →
        (∃ msg, getServerResult (.ok (body, status)) = .error msg)
          ∧ getServerResult (.ok (body, status)) ≠ .ok none)
    ∧ getEntityResult decode (.ok (body, 404)) = .ok none
    ∧ (∀ a, decode body = some a →
        getEntityResult decode (.ok (body, 200)) = .ok (some a))
    ∧ (status ≠ 200 → status ≠ 404 →
        (∃ msg, getEntityResult decode (.ok (body, status)) = .error msg)
          ∧ getEntityResult decode (.ok (body, status)) ≠ .ok none) := by
  refine ⟨by simp [getServerResult], ?_, ?_, by simp [getEntityResult], ?_, ?_⟩
  · intro s hs
    simp [getServerResult, hs]
  · intro h200 h404
    constructor
    · refine ⟨"unexpected status code " ++ toString status ++ ": " ++ body, ?_⟩
      simp [getServerResult, h200, h404]
    · simp [getServerResult, h200, h404]
  · intro a ha
    simp [getEntityResult, ha]
  · intro h200 h404
    constructor
    · refine ⟨"unexpected status code " ++ toString status ++ ": " ++ body, ?_⟩
      simp [getEntityResult, h200, h404]
    · simp [getEntityResult, h200, h404]

/-- C1 witness: the theorem at the concrete body `"null"` (which decodes
to the zero `Server`), status 500, and the trivial decoder. -/
theorem C1_witness :
    getServerResult (.ok ("null", 404)) = .ok none
    ∧ getServerResult (.ok ("null", 200)) = .ok (some ⟨"", "", "", none, "", "", "", ""⟩)
    ∧ (∃ msg, getServerResult (.ok ("null", 500)) = .error msg)
    ∧ getServerResult (.ok ("null", 500)) ≠ .ok none := by
  have h := C1_get_status_interpretation "null" 500 Unit (fun _ => some ())
  exact ⟨h.1, h.2.1 ⟨"", "", "", none, "", "", "", ""⟩ rfl,
    (h.2.2.1 (by decide) (by decide)).1, (h.2.2.1 (by decide) (by decide)).2⟩

/-! ## Theorems: C2 -/

/-- C2: for Delete calls (`Client.DeleteServer` from the source, and the
spec-modelled uniform Delete of the other entity kinds), status 200,
204, or 404 yields success (nil error) and any other status yields an
error; consequently two successive Deletes both succeed when the second
observes a 404. -/
theorem C2_delete_status_interpretation (body body1 body2 : String) (status status1 : Nat) :
    (status = 200 ∨ status = 204 ∨ status = 404 →
      deleteServerResult (.ok (body, status)) = .ok ())
    ∧ (status ≠ 200 → status ≠ 204 → status ≠ 404 →
        ∃ msg, deleteServerResult (.ok (body, status)) = .error msg)
    ∧ (status1 = 200 ∨ status1 = 204 ∨ status1 = 404 →
        deleteServerResult (.ok (body1, status1)) = .ok ()
          ∧ deleteServerResult (.ok (body2, 404)) = .ok ())
    ∧ (status = 200 ∨ status = 204 ∨ status = 404 →
        deleteEntityResult (.ok (body, status)) = .ok ())
    ∧ (status ≠ 200 → status ≠ 204 → status ≠ 404 →
        ∃ msg, deleteEntityResult (.ok (body, status)) = .error msg)
    ∧ (status1 = 200 ∨ status1 = 204 ∨ status1 = 404 →
        deleteEntityResult (.ok (body1, status1)) = .ok ()
          ∧ deleteEntityResult (.ok (body2, 404)) = .ok ()) := by
  refine ⟨?_, ?_, ?_, ?_, ?_, ?_⟩
  · rintro (rfl | rfl | rfl) <;> simp [deleteServerResult]
  · intro h200 h204 h404
    refine ⟨"unexpected status code " ++ toString status ++ ": " ++ body, ?_⟩
    simp [deleteServerResult, h200, h204, h404]
  · rintro (rfl | rfl | rfl) <;> simp [deleteServerResult]
  · rintro (rfl | rfl | rfl) <;> simp [deleteEntityResult]
  · intro h200 h204 h404
    refine ⟨"unexpected status code " ++ toString status ++ ": " ++ body, ?_⟩
    simp [deleteEntityResult, h200, h204, h404]
  · rintro (rfl | rfl | rfl) <;> simp [deleteEntityResult]

/-- C2 witness: a concrete first Delete observing 204 and a second
Delete observing 404 both succeed; a Delete observing 500 errors. -/
theorem C2_witness :
    (deleteServerResult (.ok ("", 204)) = .ok ()
      ∧ deleteServerResult (.ok ("", 404)) = .ok ())
    ∧ (∃ msg, deleteServerResult (.ok ("boom", 500)) = .error msg) := by
  have h := C2_delete_status_interpretation "boom" "" "" 500 204
  exact ⟨h.2.2.1 (Or.inr (Or.inl rfl)), h.2.1 (by decide) (by decide) (by decide)⟩

/-! ## Theorems: C3 -/

/-- C3: for the Gateway reconciler, when Read or Update completes
successfully, the API response carries no auth value (empty string),
and the previously-held local `auth_value` was set (a known value), the
resulting state's `auth_value` equals the previously-held local value. -/
theorem C3_gateway_auth_value_preserved
    (state plan : GatewayResourceModel) (gw : Gateway) (v : String)
    (api : GatewayUpdate → Except String Gateway) :
    (gw.authValue = "" → state.authValue = .value v →
      ∃ m, gatewayRead state (.ok (some gw)) = .updated m ∧ m.authValue = .value v)
    ∧ ((∀ req g, api req = .ok g → g.authValue = "") → plan.authValue = .value v →
      ∀ m, (gatewayUpdate plan api).newState = some m → m.authValue = .value v) := by
  constructor
  · intro _ hset
    refine ⟨_, rfl, ?_⟩
    simp [hset, TfString.isSet]
  · intro _ hset m hm
    cases hreq : gatewayUpdateRequest plan with
    | error d => simp [gatewayUpdate, hreq] at hm
    | ok req =>
      cases hapi : api req with
      | error e => simp [gatewayUpdate, hreq, hapi] at hm
      | ok g =>
        simp only [gatewayUpdate, hreq, hapi, hset, TfString.isSet, Option.some.injEq] at hm
        subst hm
        simp [hset, TfString.isSet]

/-- C3 witness: concrete state holding `auth_value = "secret"`, a
gateway response with an empty auth value, and an update API returning
that response. -/
theorem C3_witness :
    (∃ m, gatewayRead sampleGatewayState (.ok (some sampleGateway)) = .updated m
      ∧ m.authValue = .value "secret")
    ∧ ((gatewayUpdate sampleGatewayState (fun _ => .ok sampleGateway)).newState
        = some { gatewayToModel sampleGateway with authValue := TfString.value "secret" }
      ∧ (gatewayToModel sampleGateway).authValue = TfString.null) := by
  have h := C3_gateway_auth_value_preserved sampleGatewayState sampleGatewayState
    sampleGateway "secret" (fun _ => .ok sampleGateway)
  refine ⟨h.1 rfl rfl, rfl, rfl⟩

/-! ## Theorems: C4 -/

/-- C4: `RootResource.Update`, for every request value, reports the
descriptive `Unexpected Update` error diagnostic, issues no API call,
and performs no state modification. -/
theorem C4_root_update_always_fails (plan : RootResourceModel) :
    (rootUpdate plan).apiCalls = []
    ∧ (rootUpdate plan).newState = none
    ∧ (rootUpdate plan).diagnostics
      = [⟨"Unexpected Update",
          "Root resources do not support in-place updates. All attribute changes require resource replacement."⟩] :=
  ⟨rfl, rfl, rfl⟩

/-! ## Theorems: C6 -/

/-- C6 counterexample: a gateway (and a prompt) whose optional
collections are absent (`nil`) map to NULL list values
(`types.ListNull`), not to empty lists — the claim that absent
collections become empty lists is false. -/
theorem C6_counterexample :
    (gatewayToModel sampleGateway).tags = TfList.null
    ∧ (gatewayToModel sampleGateway).passthroughHeaders = TfList.null
    ∧ (promptToModel samplePrompt).tags = TfList.null
    ∧ TfList.null ≠ TfList.value [] := by
  exact ⟨rfl, rfl, rfl, by decide⟩

/-- C6 (amended): an optional collection field (tags, passthrough
headers, arguments, input schema) that the API returns as absent
(`nil`) is mapped to a NULL value — not to an empty list — for every
input entity. -/
theorem C6_absent_collections_become_null (gw : Gateway) (tool : Tool) (p : Prompt) :
    (gw.tags = none → (gatewayToModel gw).tags = .null)
    ∧ (gw.passthroughHeaders = none → (gatewayToModel gw).passthroughHeaders = .null)
    ∧ (p.tags = none → (promptToModel p).tags = .null)
    ∧ (p.arguments = none → (promptToModel p).arguments = .null)
    ∧ (tool.tags = none → (toolToModel tool).tags = .null)
    ∧ (tool.inputSchema = none → (toolToModel tool).inputSchema = .null) := by
  refine ⟨?_, ?_, ?_, ?_, ?_, ?_⟩ <;> intro h <;>
    simp [gatewayToModel, promptToModel, toolToModel, h]

/-- C6 witness: the amended theorem at the concrete sample entities
whose collections are absent. -/
theorem C6_witness :
    (gatewayToModel sampleGateway).tags = TfList.null
    ∧ (promptToModel samplePrompt).arguments = TfString.null
    ∧ (toolToModel sampleTool).inputSchema = TfString.null := by
  have h := C6_absent_collections_become_null sampleGateway sampleTool samplePrompt
  exact ⟨h.1 rfl, h.2.2.2.1 rfl, h.2.2.2.2.2 rfl⟩

/-! ## Theorems: C7 -/

/-- C7: for Tool (`input_schema`), Gateway (`capabilities`), and Prompt
(`arguments`), a set, non-empty structured-field blob that fails to
parse as JSON of the expected shape makes Create and Update report a
local validation diagnostic and return with no API call issued and no
state set. -/
theorem C7_malformed_blob_is_local_error
    (tp : ToolResourceModel) (gp : GatewayResourceModel) (pp : PromptResourceModel)
    (bs cs as : String)
    (apiTC : CreateToolRequest → Except String Tool)
    (apiTU : ToolUpdate → Except String Tool)
    (apiGC : GatewayCreate → Except String Gateway)
    (apiGU : GatewayUpdate → Except String Gateway)
    (apiPC : CreatePromptRequest → Except String Prompt)
    (apiPU : PromptUpdate → Except String Prompt) :
    (tp.inputSchema = .value bs → bs ≠ "" → unmarshalObjectBlob bs = none →
      toolCreate tp apiTC
        = ⟨[], [⟨"Invalid Input Schema", "Unable to parse input_schema JSON"⟩], none⟩
      ∧ toolUpdate tp apiTU
        = ⟨[], [⟨"Invalid Input Schema", "Unable to parse input_schema JSON"⟩], none⟩)
    ∧ (gp.capabilities = .value cs → cs ≠ "" → unmarshalObjectBlob cs = none →
      gatewayCreate gp apiGC
        = ⟨[], [⟨"Invalid Capabilities", "Unable to parse capabilities JSON"⟩], none⟩
      ∧ gatewayUpdate gp apiGU
        = ⟨[], [⟨"Invalid Capabilities", "Unable to parse capabilities JSON"⟩], none⟩)
    ∧ (pp.arguments = .value as → as ≠ "" → unmarshalPromptArguments as = none →
      promptCreate pp apiPC
        = ⟨[], [⟨"Invalid Arguments", "Unable to parse arguments JSON"⟩], none⟩
      ∧ promptUpdate pp apiPU
        = ⟨[], [⟨"Invalid Arguments", "Unable to parse arguments JSON"⟩], none⟩) := by
  refine ⟨?_, ?_, ?_⟩
  · intro hv hne hparse
    constructor
    · simp [toolCreate, toolCreateRequest, hv, hne, hparse, TfString.isSet, TfString.valueString]
    · simp [toolUpdate, toolUpdateRequest, hv, hne, hparse, TfString.isSet, TfString.valueString]
  · intro hv hne hparse
    constructor
    · simp [gatewayCreate, gatewayCreateRequest, hv, hne, hparse, TfString.isSet,
        TfString.valueString]
    · simp [gatewayUpdate, gatewayUpdateRequest, hv, hne, hparse, TfString.isSet,
        TfString.valueString]
  · intro hv hne hparse
    constructor
    · simp [promptCreate, promptCreateRequest, hv, hne, hparse, TfString.isSet,
        TfString.valueString]
    · simp [promptUpdate, promptUpdateRequest, hv, hne, hparse, TfString.isSet,
        TfString.valueString]

/-- C7 witness: concrete plans whose blob is the non-JSON string `"x"`;
all six operations stop with the local diagnostic, no API call, no
state. -/
theorem C7_witness :
    toolCreate sampleBadToolPlan (fun _ => .error "unreachable")
      = ⟨[], [⟨"Invalid Input Schema", "Unable to parse input_schema JSON"⟩], none⟩
    ∧ gatewayUpdate sampleBadGatewayPlan (fun _ => .error "unreachable")
      = ⟨[], [⟨"Invalid Capabilities", "Unable to parse capabilities JSON"⟩], none⟩
    ∧ promptCreate sampleBadPromptPlan (fun _ => .error "unreachable")
      = ⟨[], [⟨"Invalid Arguments", "Unable to parse arguments JSON"⟩], none⟩ := by
  have h := C7_malformed_blob_is_local_error sampleBadToolPlan sampleBadGatewayPlan
    sampleBadPromptPlan "x" "x" "x"
    (fun _ => .error "unreachable") (fun _ => .error "unreachable")
    (fun _ => .error "unreachable") (fun _ => .error "unreachable")
    (fun _ => .error "unreachable") (fun _ => .error "unreachable")
  exact ⟨(h.1 rfl (by decide) rfl).1, (h.2.1 rfl (by decide) rfl).2,
    (h.2.2 rfl (by decide) rfl).1⟩

/-! ## Theorems: C8 -/

/-- C8 counterexample: the Tool resource exposes a `visibility`
attribute, but its schema attaches no validator, so the out-of-set
value `"banana"` passes Tool's declared-schema validation — the claim
that every entity kind with a visibility field rejects values outside
`{public, private, team}` is false. -/
theorem C8_counterexample :
    toolVisibilityValidators.oneOfSets = []
    ∧ passesValidators toolVisibilityValidators "banana" = true
    ∧ "banana" ∉ (["public", "private", "team"] : List String) := by
  exact ⟨rfl, rfl, by decide⟩

/-- C8 (amended): the Prompt, Server, and MCP Resource visibility
attributes carry a fixed `OneOf(public, private, team)` allowed-set
check (run by the framework before any network call), and Gateway's
transport carries `OneOf(STREAMABLEHTTP, SSE, STDIO)`; Tool's
visibility attribute carries no such check and accepts any value. -/
theorem C8_visibility_allowed_set (s t : String) :
    (s ∉ (["public", "private", "team"] : List String) →
      passesValidators promptVisibilityValidators s = false
      ∧ passesValidators serverVisibilityValidators s = false
      ∧ passesValidators mcpResourceVisibilityValidators s = false)
    ∧ (s ∈ (["public", "private", "team"] : List String) →
      passesValidators promptVisibilityValidators s = true)
    ∧ (t ∉ (["STREAMABLEHTTP", "SSE", "STDIO"] : List String) →
      passesValidators gatewayTransportValidators t = false)
    ∧ passesValidators toolVisibilityValidators s = true := by
  refine ⟨?_, ?_, ?_, rfl⟩
  · intro hs
    simp only [List.mem_cons, List.not_mem_nil, or_false, not_or] at hs
    obtain ⟨h1, h2, h3⟩ := hs
    refine ⟨?_, ?_, ?_⟩ <;>
      simp [passesValidators, promptVisibilityValidators, serverVisibilityValidators,
        mcpResourceVisibilityValidators, List.contains, List.elem, h1, h2, h3]
  · intro hs
    simp only [List.mem_cons, List.not_mem_nil, or_false] at hs
    rcases hs with rfl | rfl | rfl <;> decide
  · intro ht
    simp only [List.mem_cons, List.not_mem_nil, or_false, not_or] at ht
    obtain ⟨h1, h2, h3⟩ := ht
    simp [passesValidators, gatewayTransportValidators, List.contains, List.elem, h1, h2, h3]

/-- C8 witness: the amended theorem at the out-of-set value `"banana"`
and out-of-set transport `"smoke"`. -/
theorem C8_witness :
    passesValidators promptVisibilityValidators "banana" = false
    ∧ passesValidators gatewayTransportValidators "smoke" = false
    ∧ passesValidators toolVisibilityValidators "banana" = true := by
  have h := C8_visibility_allowed_set "banana" "smoke"
  exact ⟨(h.1 (by decide)).1, h.2.2.1 (by decide), h.2.2.2⟩

/-! ## Theorems: C9 -/

/-- C9: `RootResource.Read` consumes the full `ListRoots` result and
linear-scans it for the first root whose URI equals the URI in state;
when no root matches, the outcome is removal from managed state (not an
error), and when one matches after a non-matching prefix, the first
match is used. -/
theorem C9_root_read_linear_scan (state : RootResourceModel)
    (roots pre post : List Root) (r : Root) :
    ((∀ x ∈ roots, x.uri ≠ state.uri.valueString) →
      rootRead state (.ok roots) = .removed)
    ∧ ((∀ x ∈ pre, x.uri ≠ state.uri.valueString) → r.uri = state.uri.valueString →
      rootRead state (.ok (pre ++ r :: post))
        = .updated ⟨.value r.uri, if r.name ≠ "" then .value r.name else .null⟩) := by
  constructor
  · intro hnone
    have hfind : roots.find? (fun x => x.uri == state.uri.valueString) = none := by
      rw [List.find?_eq_none]
      intro x hx
      simpa using hnone x hx
    simp [rootRead, hfind]
  · intro hpre hr
    have hfind : (pre ++ r :: post).find? (fun x => x.uri == state.uri.valueString)
        = some r := by
      induction pre with
      | nil => simp [List.find?, hr]
      | cons a tl ih =>
        have ha : (a.uri == state.uri.valueString) = false := by
          simpa using hpre a (by simp)
        have ih' := ih (fun x hx => hpre x (by simp [hx]))
        simpa [List.find?, ha] using ih'
    simp [rootRead, hfind]

/-- C9 witness: state tracking `file:///a`; a list without that URI
removes the resource, and a list with a non-matching prefix and two
matches refreshes from the first match. -/
theorem C9_witness :
    rootRead ⟨.value "file:///a", .null⟩ (.ok [⟨"file:///b", "b"⟩]) = .removed
    ∧ rootRead ⟨.value "file:///a", .null⟩
        (.ok ([⟨"file:///b", "b"⟩] ++ ⟨"file:///a", "n"⟩ :: [⟨"file:///a", "other"⟩]))
      = .updated ⟨.value "file:///a", .value "n"⟩ := by
  have h := C9_root_read_linear_scan ⟨.value "file:///a", .null⟩
    [⟨"file:///b", "b"⟩] [⟨"file:///b", "b"⟩] [⟨"file:///a", "other"⟩] ⟨"file:///a", "n"⟩
  refine ⟨h.1 ?_, ?_⟩
  · intro x hx
    simp at hx
    subst hx
    decide
  · have h2 := h.2 ?_ (by decide)
    · simpa using h2
    · intro x hx
      simp at hx
      subst hx
      decide

end ContextForge
